import Mathlib

/-!
Shallow embedding of the adaptive test assembly and grading engine of the
lmB repository (src/utils/smartQuestionSelector.js and
src/controllers/testController.js), together with theorems settling the
claims about the question-breakdown computation, grading, adaptive
difficulty, history tracking and answer hiding.

Conventions of the embedding:
- JavaScript numbers are modelled as Nat / Int / rationals; all inputs the
  system ever passes are integers, so Math.round of c * (p / 100) is
  modelled exactly as (c * p + 50) / 100 with Int floor division.
- Database collaborators (the question store, the AI generator, random
  sampling, Math.random, Date.now) are parameters of the functions that
  use them; theorems state the hypotheses those collaborators satisfy.
- Thrown JavaScript exceptions are modelled with Except.
-/

namespace LmB

/-- One test case of a Coding question: testCases entries of the question
model, with input and expected output kept as the strings the controller
compares after String(...) coercion. -/
structure TestCase where
  input : String
  output : String
deriving DecidableEq, Repr

/-- A question record as used by the selector and the grader
(questionModel fields that the code under src reads). -/
structure Question where
  id : String
  questionType : String
  difficulty : String
  category : String
  questionText : String
  options : List String
  correctAnswer : String
  testCases : List TestCase
  points : Nat
  isActive : Bool
deriving DecidableEq, Repr

/-- Difficulty distribution triple of percentages, as in
difficultyDistribution of the selector config. -/
structure DifficultyDist where
  easy : Int
  medium : Int
  hard : Int
deriving DecidableEq, Repr

/-- Question type distribution, as in questionTypes of the selector
config (MCQ, Coding, TrueFalse percentages). -/
structure TypeDist where
  mcq : Int
  coding : Int
  trueFalse : Int
deriving DecidableEq, Repr

/-- One cell of the computed breakdown: a difficulty tier, a question
type, and the number of questions requested from that cell. -/
structure BreakdownCell where
  difficulty : String
  qtype : String
  count : Int
deriving DecidableEq, Repr

/-- Math.round of c * (p / 100) for integer c and p, exactly: JavaScript
Math.round is floor of x + 1/2 (half away from minus infinity), and for
integer arguments floor of (c * p / 100 + 1/2) equals Int floor division
of (c * p + 50) by 100.  Int division by the positive literal 100 in Lean
is Euclidean division, which agrees with floor division here. -/
def jsRound (c p : Int) : Int := (c * p + 50) / 100

/-- Sub-divide one difficulty tier of size c by question type, from the
body of the loop of calculateQuestionBreakdown: tiers of non-positive
size are skipped, the MCQ and Coding counts are rounded and the
TrueFalse count is the remainder, and only positive counts are pushed. -/
def typeCells (difficulty : String) (c : Int) (td : TypeDist) : List BreakdownCell :=
  if c ≤ 0 then []
  else
    let mcqCount := jsRound c td.mcq
    let codingCount := jsRound c td.coding
    let tfCount := c - mcqCount - codingCount
    (if 0 < mcqCount then [⟨difficulty, "MCQ", mcqCount⟩] else []) ++
    (if 0 < codingCount then [⟨difficulty, "Coding", codingCount⟩] else []) ++
    (if 0 < tfCount then [⟨difficulty, "TrueFalse", tfCount⟩] else [])

/-- The easy tier count of calculateQuestionBreakdown. -/
def easyCount (total : Int) (dd : DifficultyDist) : Int := jsRound total dd.easy

/-- The medium tier count of calculateQuestionBreakdown. -/
def mediumCount (total : Int) (dd : DifficultyDist) : Int := jsRound total dd.medium

/-- The hard tier count of calculateQuestionBreakdown: the remainder
total minus easyCount minus mediumCount. -/
def hardCount (total : Int) (dd : DifficultyDist) : Int :=
  total - easyCount total dd - mediumCount total dd

/-- calculateQuestionBreakdown of smartQuestionSelector.js: round the
easy and medium tier counts, make the hard tier the remainder, then
sub-divide every tier by question type. -/
def calculateQuestionBreakdown (total : Int) (dd : DifficultyDist) (td : TypeDist) :
    List BreakdownCell :=
  typeCells "easy" (easyCount total dd) td ++
  typeCells "medium" (mediumCount total dd) td ++
  typeCells "hard" (hardCount total dd) td

/-- Sum of the requested counts of a breakdown. -/
def breakdownSum (cells : List BreakdownCell) : Int :=
  (cells.map (fun cell => cell.count)).sum

/-- Total number of questions a breakdown requests (sizes of the store
draws). -/
def breakdownSizes (cells : List BreakdownCell) : Nat :=
  (cells.map (fun cell => cell.count.toNat)).sum

/-- The tier of size c leaves non-negative slack to the remainder
TrueFalse type after rounding the MCQ and Coding counts. -/
def tierSlackOk (c : Int) (td : TypeDist) : Prop :=
  0 < c → jsRound c td.mcq + jsRound c td.coding ≤ c

instance (c : Int) (td : TypeDist) : Decidable (tierSlackOk c td) := by
  unfold tierSlackOk; infer_instance

/-- One seenQuestions entry of a StudentQuestionHistory record.  Dates
are modelled as integers (days since an epoch). -/
structure SeenQuestion where
  question : String
  test : String
  seenAt : Int
  answeredCorrectly : Bool
deriving DecidableEq, Repr

/-- An attempted and correct pair of the keyed performance aggregates of
a StudentQuestionHistory record. -/
structure Perf where
  attempted : Nat
  correct : Nat
deriving DecidableEq, Repr

/-- A StudentQuestionHistory record.  The two keyed aggregates are
modelled as association lists, matching the Map fields of the schema. -/
structure History where
  student : String
  seenQuestions : List SeenQuestion
  totalQuestionsAttempted : Nat
  correctAnswers : Nat
  categoryPerformance : List (String × Perf)
  difficultyPerformance : List (String × Perf)
deriving DecidableEq, Repr

/-- getRecentlySeenQuestionIds of smartQuestionSelector.js: the ids of
the seenQuestions entries whose seenAt is strictly after the cutoff,
now minus days. -/
def getRecentlySeenQuestionIds (history : History) (days : Int) (now : Int) :
    List String :=
  (history.seenQuestions.filter (fun sq => now - days < sq.seenAt)).map
    (fun sq => sq.question)

/-- A question pool record, as read by selectQuestions (the explicit
subset of question ids it restricts selection to). -/
structure QuestionPool where
  id : String
  questions : List String
  isDefault : Bool
  isActive : Bool
deriving DecidableEq, Repr

/-- The Mongo query built by selectQuestions for one breakdown cell:
difficulty, question type, active status, an id $nin exclusion list, an
optional category $in list, and an optional pool $in list. -/
structure Query where
  difficulty : String
  qtype : String
  excludeIds : List String
  categories : Option (List String)
  poolQuestions : Option (List String)
deriving DecidableEq, Repr

/-- Whether a question record matches a query built by selectQuestions:
same difficulty and type, active, id not excluded, category in the allow
list when one is set, id in the pool subset when one is set. -/
def matchesQuery (q : Question) (query : Query) : Bool :=
  q.difficulty == query.difficulty && q.questionType == query.qtype && q.isActive &&
  !(query.excludeIds.contains q.id) &&
  (match query.categories with
   | none => true
   | some cats => cats.contains q.category) &&
  (match query.poolQuestions with
   | none => true
   | some pqs => pqs.contains q.id)

/-- Build the query of selectQuestions for one cell: the category filter
applies only when a non-empty category list is given, and the pool
filter only when a pool with a non-empty question subset is bound
(JavaScript truthiness of categories.length and pool.questions.length). -/
def mkQuery (cell : BreakdownCell) (categories : Option (List String))
    (pool : Option QuestionPool) (excludeIds : List String) : Query :=
  { difficulty := cell.difficulty
    qtype := cell.qtype
    excludeIds := excludeIds
    categories := match categories with
      | none => none
      | some cats => if cats.isEmpty then none else some cats
    poolQuestions := match pool with
      | none => none
      | some p => if p.questions.isEmpty then none else some p.questions }

/-- selectQuestions of smartQuestionSelector.js, parametrised by the
store sampling primitive (the aggregate with $match and $sample): for
each breakdown cell draw up to count matching questions, then append the
drawn ids to the exclusion list before the next cell.  Returns the
selected questions and the final exclusion list. -/
def selectQuestions (sample : Query → Nat → List Question)
    (categories : Option (List String)) (pool : Option QuestionPool) :
    List BreakdownCell → List String → List Question × List String
  | [], excludeIds => ([], excludeIds)
  | cell :: rest, excludeIds =>
    let qs := sample (mkQuery cell categories pool excludeIds) cell.count.toNat
    let res := selectQuestions sample categories pool rest
      (excludeIds ++ qs.map (fun q => q.id))
    (qs ++ res.1, res.2)

/-- Number of questions of the given difficulty and type among the
already selected ones, from the existingByType tally of
generateAdditionalQuestions. -/
def countByType (existing : List Question) (difficulty qtype : String) : Nat :=
  (existing.filter (fun q =>
    q.difficulty == difficulty && q.questionType == qtype)).length

/-- generateAdditionalQuestions of smartQuestionSelector.js,
parametrised by the AI generation primitive gen (category, difficulty,
type, count) and by the random category choice pickCategory: for every
cell still short of its count, request the shortfall from the generator,
then return at most count questions (the final slice). -/
def generateAdditionalQuestions (gen : String → String → String → Nat → List Question)
    (pickCategory : Option (List String) → String) (count : Nat)
    (breakdown : List BreakdownCell) (existing : List Question)
    (categories : Option (List String)) : List Question :=
  let generated := breakdown.foldl (fun acc req =>
    let haveCount := countByType existing req.difficulty req.qtype
    let need := req.count - (haveCount : Int)
    if 0 < need then
      acc ++ gen (pickCategory categories) req.difficulty req.qtype need.toNat
    else acc) []
  generated.take count

/-- Swap the elements at positions i and j of a list (the destructuring
swap of the Fisher and Yates loop); out of range positions leave the
list unchanged. -/
def swapAt' (l : List Question) (i j : Nat) : List Question :=
  match l[i]?, l[j]? with
  | some a, some b => (l.set i b).set j a
  | _, _ => l

/-- The Fisher and Yates loop of shuffleArray, parametrised by the
random draws: fisherYates r i l performs the iterations of the loop
with indices i, i - 1, ..., 1, where at index k the partner
j = r k mod (k + 1) models Math.floor(Math.random() * (k + 1)). -/
def fisherYates (r : Nat → Nat) : Nat → List Question → List Question
  | 0, l => l
  | (i+1), l => fisherYates r i (swapAt' l (i+1) (r (i+1) % (i+2)))

/-- shuffleArray of smartQuestionSelector.js: run the Fisher and Yates
loop from the last index of the list down to 1. -/
def shuffleArray (r : Nat → Nat) (l : List Question) : List Question :=
  fisherYates r (l.length - 1) l

/-- The selector configuration fields read by selectQuestionsForTest
(the destructured config with its defaults filled in by the caller). -/
structure SelectorConfig where
  totalQuestions : Nat
  difficultyDistribution : DifficultyDist
  questionTypes : TypeDist
  categories : Option (List String)
  avoidRecentQuestions : Bool
  recentQuestionDays : Int
  generateIfNeeded : Bool
deriving Repr

/-- selectQuestionsForTest of smartQuestionSelector.js, parametrised by
the store sampling primitive, the AI generation primitive, the random
category choice, the random shuffle draws and the current date: compute
the recently seen ids, the breakdown and the selection; top up with
generated questions when short and generation is enabled; shuffle. -/
def selectQuestionsForTest (sample : Query → Nat → List Question)
    (gen : String → String → String → Nat → List Question)
    (pickCategory : Option (List String) → String) (r : Nat → Nat) (now : Int)
    (history : History) (pool : Option QuestionPool) (config : SelectorConfig) :
    List Question :=
  let recentlySeenIds :=
    if config.avoidRecentQuestions then
      getRecentlySeenQuestionIds history config.recentQuestionDays now
    else []
  let questionBreakdown := calculateQuestionBreakdown (config.totalQuestions : Int)
    config.difficultyDistribution config.questionTypes
  let selectedQuestions :=
    (selectQuestions sample config.categories pool questionBreakdown recentlySeenIds).1
  let selectedQuestions :=
    if selectedQuestions.length < config.totalQuestions && config.generateIfNeeded then
      selectedQuestions ++ generateAdditionalQuestions gen pickCategory
        (config.totalQuestions - selectedQuestions.length) questionBreakdown
        selectedQuestions config.categories
    else selectedQuestions
  shuffleArray r selectedQuestions

/-- A deterministic model of the store sampling primitive backed by a
concrete list of stored questions: return the first n stored questions
matching the query (a store draw that respects the filter and the size
bound, used by the witnesses). -/
def storeSample (store : List Question) (query : Query) (n : Nat) : List Question :=
  (store.filter (fun q => matchesQuery q query)).take n

/-- A generator that produces nothing (generation disabled or failing). -/
def noGen : String → String → String → Nat → List Question := fun _ _ _ _ => []

/-- The constant category choice General of the generator fallback. -/
def pickGeneral : Option (List String) → String := fun _ => "General"

/-- A fixed random draw sequence for the shuffle (always picks index 0). -/
def randZero : Nat → Nat := fun _ => 0

/-- A fresh history record for a learner with no attempts. -/
def emptyHistory : History := ⟨"student1", [], 0, 0, [], []⟩

/-- A concrete active MCQ question used by the witnesses. -/
def mkMcq (i difficulty : String) : Question :=
  ⟨i, "MCQ", difficulty, "General", "q", ["A", "B"], "A", [], 1, true⟩

/-- Store of five questions for the best-effort example: one easy MCQ,
three medium MCQ and one hard MCQ (no TrueFalse and no Coding stock). -/
def storeFive : List Question :=
  [mkMcq "e1" "easy", mkMcq "m1" "medium", mkMcq "m2" "medium",
   mkMcq "m3" "medium", mkMcq "h1" "hard"]

/-- The default selector configuration of the leave workflow with seven
questions and generation disabled. -/
def configSeven : SelectorConfig :=
  ⟨7, ⟨30, 50, 20⟩, ⟨70, 20, 10⟩, none, true, 30, false⟩

/-- History of a learner who saw question r1 at day 5 (inside a 30 day
window ending at day 6). -/
def historyRecent : History :=
  ⟨"student1", [⟨"r1", "t0", 5, false⟩], 1, 0, [], []⟩

/-- Store holding the recently seen question r1 and a fresh question a1
of the same difficulty and type. -/
def storeRecent : List Question := [mkMcq "r1" "easy", mkMcq "a1" "easy"]

/-- One easy MCQ question with recent questions avoided over a 30 day
window and generation enabled. -/
def configRecent : SelectorConfig :=
  ⟨1, ⟨100, 0, 0⟩, ⟨100, 0, 0⟩, none, true, 30, true⟩

/-- Outcome of one sandbox execution of submitted code on one test case
input (vm.run of the answer followed by the solution call): either the
stringified return value, or an error covering both a thrown runtime
error and the 1000 ms timeout, which vm2 also raises as a throw. -/
inductive CaseOutcome where
  | success (output : String)
  | error
deriving DecidableEq, Repr

/-- One submitted answer of the request body: the question id and the
answer value (option text for objective types, code text for Coding). -/
structure SubmittedAnswer where
  questionId : String
  answer : String
deriving DecidableEq, Repr

/-- Whether one test case passes: the sandbox run returns successfully
and the stringified result equals the stringified expected output. -/
def casePasses (exec : String → String → CaseOutcome) (code : String)
    (tc : TestCase) : Bool :=
  match exec code tc.input with
  | CaseOutcome.success out => out == tc.output
  | CaseOutcome.error => false

/-- The Coding branch of the grading loop of submitTest: run the test
cases in order; a mismatched output or a thrown error (or timeout) makes
the question fail and breaks out of the loop, skipping the remaining
cases; the question passes only when every case ran and matched. -/
def gradeCoding (exec : String → String → CaseOutcome) (code : String) :
    List TestCase → Bool
  | [] => true
  | tc :: rest =>
    match exec code tc.input with
    | CaseOutcome.success out =>
      if out == tc.output then gradeCoding exec code rest else false
    | CaseOutcome.error => false

/-- Points one submitted answer contributes in submitTest: find the
question by id (an unknown id contributes nothing), award one point to
an MCQ on exact string equality with correctAnswer, one point to a
Coding question when every test case passes, and nothing to any other
question type. -/
def answerScore (exec : String → String → CaseOutcome) (questions : List Question)
    (sa : SubmittedAnswer) : Nat :=
  match questions.find? (fun q => q.id == sa.questionId) with
  | none => 0
  | some q =>
    if q.questionType == "MCQ" then
      if q.correctAnswer == sa.answer then 1 else 0
    else if q.questionType == "Coding" then
      if gradeCoding exec sa.answer q.testCases then 1 else 0
    else 0

/-- The scoring loop of submitTest: fold over the submitted answers,
incrementing the score exactly as the JavaScript loop does. -/
def computeScore (exec : String → String → CaseOutcome) (questions : List Question)
    (answers : List SubmittedAnswer) : Nat :=
  answers.foldl (fun score sa =>
    match questions.find? (fun q => q.id == sa.questionId) with
    | none => score
    | some q =>
      if q.questionType == "MCQ" then
        if q.correctAnswer == sa.answer then score + 1 else score
      else if q.questionType == "Coding" then
        if gradeCoding exec sa.answer q.testCases then score + 1 else score
      else score) 0

/-- A sandbox behaviour in which the test case with input in2 times out
(an error outcome) and every other case returns the string ok. -/
def execTimesOutOn2 : String → String → CaseOutcome := fun _ input =>
  if input == "in2" then CaseOutcome.error else CaseOutcome.success "ok"

/-- checkAnswer of smartQuestionSelector.js: exact string equality with
correctAnswer for the objective types MCQ and TrueFalse, always false
for every other type (coding would need to run tests). -/
def checkAnswer (q : Question) (answer : String) : Bool :=
  if q.questionType == "MCQ" || q.questionType == "TrueFalse" then
    q.correctAnswer == answer
  else false

/-- A TrueFalse question whose stored correct answer is True. -/
def tfQuestion : Question :=
  ⟨"q1", "TrueFalse", "easy", "General", "q", ["True", "False"], "True", [], 1, true⟩

/-- The test configuration snapshot stored on a Test record (the fields
the controller and the leave workflow set; passingPercentage is stored
with default 60 but never read back by the grader). -/
structure TestConfig where
  totalTimeLimit : Nat
  passingPercentage : Nat
  shuffleQuestions : Bool
  shuffleOptions : Bool
deriving DecidableEq, Repr

/-- A Test record as read and written by submitTest. -/
structure Test where
  id : String
  leaveRequest : String
  student : String
  questions : List Question
  config : TestConfig
  score : Nat
  status : String
deriving DecidableEq, Repr

/-- A Submission record as created by submitTest. -/
structure Submission where
  test : String
  leaveRequest : String
  student : String
  answers : List (String × String)
  score : Nat
  totalQuestions : Nat
  isPassed : Bool
  tabSwitchCount : Nat
deriving DecidableEq, Repr

/-- Everything submitTest computes while grading: the score, the
verdict, the updated Test and the created Submission. -/
structure GradeResult where
  score : Nat
  isPassed : Bool
  totalQuestions : Nat
  updatedTest : Test
  submission : Submission
deriving DecidableEq, Repr

/-- The grading phase of submitTest of testController.js: compute the
score over the submitted answers, mark the test Completed with that
score, take totalQuestions as the number of questions of the test,
compare the score against Math.ceil(totalQuestions * 0.6) (the
hard-coded 60 percent threshold), and build the Submission record. -/
def submitTestGrade (exec : String → String → CaseOutcome) (student : String)
    (test : Test) (answers : List SubmittedAnswer) (tabSwitchCount : Nat) :
    GradeResult :=
  let score := computeScore exec test.questions answers
  let updatedTest := { test with score := score, status := "Completed" }
  let totalQuestions := test.questions.length
  let passingScore : Int := ⌈(totalQuestions : ℚ) * (6 / 10)⌉
  let isPassed : Bool := decide ((score : Int) ≥ passingScore)
  { score := score
    isPassed := isPassed
    totalQuestions := totalQuestions
    updatedTest := updatedTest
    submission := ⟨test.id, test.leaveRequest, student,
      answers.map (fun a => (a.questionId, a.answer)), score, totalQuestions,
      isPassed, tabSwitchCount⟩ }

/-- A test of ten MCQ questions whose config sets passingPercentage to
50 (the stored threshold the claim says is honoured). -/
def testTen : Test :=
  ⟨"t1", "lr1", "s1",
    [mkMcq "q0" "easy", mkMcq "q1" "easy", mkMcq "q2" "easy", mkMcq "q3" "easy",
     mkMcq "q4" "easy", mkMcq "q5" "easy", mkMcq "q6" "easy", mkMcq "q7" "easy",
     mkMcq "q8" "easy", mkMcq "q9" "easy"],
    ⟨1800, 50, true, true⟩, 0, "Assigned"⟩

/-- Answers to testTen scoring exactly five points (the first five
correct, the last five wrong). -/
def answersTen : List SubmittedAnswer :=
  [⟨"q0", "A"⟩, ⟨"q1", "A"⟩, ⟨"q2", "A"⟩, ⟨"q3", "A"⟩, ⟨"q4", "A"⟩,
   ⟨"q5", "B"⟩, ⟨"q6", "B"⟩, ⟨"q7", "B"⟩, ⟨"q8", "B"⟩, ⟨"q9", "B"⟩]

/-- Map.get of the keyed performance aggregates, over the association
list model. -/
def mapGet (m : List (String × Perf)) (k : String) : Option Perf :=
  (m.find? (fun p => p.1 == k)).map (fun p => p.2)

/-- Map.set of the keyed performance aggregates: replace the value under
an existing key, else append the new binding. -/
def mapSet (m : List (String × Perf)) (k : String) (v : Perf) :
    List (String × Perf) :=
  if m.any (fun p => p.1 == k) then
    m.map (fun p => if p.1 == k then (k, v) else p)
  else m ++ [(k, v)]

/-- The body of the questions loop of updateStudentHistory: find the
submitted answer by question id, check it, append the seen-question
entry, and bump the category and difficulty aggregates
(get-or-default, increment, set). -/
def processQuestion (now : Int) (testId : String) (answers : List SubmittedAnswer)
    (h : History) (q : Question) : History :=
  let answer := answers.find? (fun a => a.questionId == q.id)
  let isCorrect := match answer with
    | some a => checkAnswer q a.answer
    | none => false
  let catPerf := (mapGet h.categoryPerformance q.category).getD ⟨0, 0⟩
  let catPerf' : Perf := ⟨catPerf.attempted + 1,
    catPerf.correct + (if isCorrect then 1 else 0)⟩
  let diffPerf := (mapGet h.difficultyPerformance q.difficulty).getD ⟨0, 0⟩
  let diffPerf' : Perf := ⟨diffPerf.attempted + 1,
    diffPerf.correct + (if isCorrect then 1 else 0)⟩
  { h with
    seenQuestions := h.seenQuestions ++ [⟨q.id, testId, now, isCorrect⟩]
    categoryPerformance := mapSet h.categoryPerformance q.category catPerf'
    difficultyPerformance := mapSet h.difficultyPerformance q.difficulty diffPerf' }

/-- updateStudentHistory of smartQuestionSelector.js: append one
seen-question entry per test question (matching answers by question id)
and bump the keyed aggregates, then add the number of questions to
totalQuestionsAttempted and add to correctAnswers the count of answers
whose POSITION i pairs them with questions[i]
(answers.filter((a, i) => checkAnswer(questions[i], a.answer))).  When
the answers array is longer than the questions array that filter reads
past the end and checkAnswer throws a TypeError on an undefined
question, modelled as an Except error; nothing is persisted then. -/
def updateStudentHistory (now : Int) (history : History) (testId : String)
    (questions : List Question) (answers : List SubmittedAnswer) :
    Except String History :=
  let afterLoop := questions.foldl (processQuestion now testId answers) history
  if questions.length < answers.length then
    Except.error "TypeError: cannot read questionType of undefined"
  else
    Except.ok
      { afterLoop with
        totalQuestionsAttempted := afterLoop.totalQuestionsAttempted + questions.length
        correctAnswers := afterLoop.correctAnswers +
          ((answers.zip questions).filter
            (fun p => checkAnswer p.2 p.1.answer)).length }

/-- Two MCQ questions with different correct answers, for the C9
failing input. -/
def q1McqA : Question :=
  ⟨"q1", "MCQ", "easy", "General", "q", ["A", "B"], "A", [], 1, true⟩

/-- Second question of the C9 failing input. -/
def q2McqB : Question :=
  ⟨"q2", "MCQ", "easy", "General", "q", ["A", "B"], "B", [], 1, true⟩

/-- The JSON body submitTest sends on success. -/
structure SubmitResponse where
  message : String
  score : Nat
  isPassed : Bool
  totalQuestions : Nat
deriving DecidableEq, Repr

/-- submitTest of testController.js from grading to the response:
grade, then try to update the student question history (the in-memory
update followed by the save, either of which can fail), catching any
failure and logging it instead of failing the submission, then answer
with the score, the verdict and the total.  Returns the console error
log and the response body. -/
def submitTestHandler (exec : String → String → CaseOutcome)
    (saveHistory : History → Except String History) (now : Int) (student : String)
    (history : History) (test : Test) (answers : List SubmittedAnswer)
    (tabSwitchCount : Nat) : List String × SubmitResponse :=
  let result := submitTestGrade exec student test answers tabSwitchCount
  let historyResult : Except String History :=
    match updateStudentHistory now history test.id test.questions answers with
    | Except.ok h => saveHistory h
    | Except.error e => Except.error e
  let logs := match historyResult with
    | Except.error e => ["Failed to update question history: " ++ e]
    | Except.ok _ => []
  (logs, ⟨"Test submitted successfully", result.score, result.isPassed,
    result.totalQuestions⟩)

/-- A history save that always fails (the database is down). -/
def saveFails : History → Except String History := fun _ => Except.error "db down"

/-- The overall accuracy computed by getAdaptiveDifficulty:
correctAnswers divided by totalQuestionsAttempted, as an exact
rational (the branch using it is only reached when the denominator is
at least 10). -/
def overallAccuracy (h : History) : ℚ :=
  (h.correctAnswers : ℚ) / (h.totalQuestionsAttempted : ℚ)

/-- getAdaptiveDifficulty of smartQuestionSelector.js: below 10
attempts the fixed neutral distribution; otherwise one of three bands
by overall accuracy. -/
def getAdaptiveDifficulty (h : History) : DifficultyDist :=
  if h.totalQuestionsAttempted < 10 then ⟨30, 50, 20⟩
  else if overallAccuracy h ≥ 8 / 10 then ⟨10, 40, 50⟩
  else if overallAccuracy h ≥ 6 / 10 then ⟨25, 50, 25⟩
  else ⟨50, 40, 10⟩

/-- History of the end-to-end example: 20 attempts, 17 correct. -/
def historySeventeen : History := ⟨"student1", [], 20, 17, [], []⟩

/-- A question as sent to the client by getTestById: every stored field
except correctAnswer and testCases, which the destructuring strips
before the response is built. -/
structure PublicQuestion where
  id : String
  questionType : String
  difficulty : String
  category : String
  questionText : String
  options : List String
  points : Nat
  isActive : Bool
deriving DecidableEq, Repr

/-- The stripping of one question in getTestById: the rest object of
the destructuring with correctAnswer and testCases removed. -/
def toPublicQuestion (q : Question) : PublicQuestion :=
  ⟨q.id, q.questionType, q.difficulty, q.category, q.questionText, q.options,
    q.points, q.isActive⟩

/-- The response body of getTestById: the test object spread together
with the stripped questions. -/
structure TestResponse where
  id : String
  leaveRequest : String
  student : String
  config : TestConfig
  score : Nat
  status : String
  questions : List PublicQuestion
deriving DecidableEq, Repr

/-- getTestById of testController.js: map every populated question to
its stripped form and answer with the test fields plus the stripped
questions. -/
def getTestByIdResponse (test : Test) : TestResponse :=
  ⟨test.id, test.leaveRequest, test.student, test.config, test.score, test.status,
    test.questions.map toPublicQuestion⟩

theorem jsRound_nonneg {c p : Int} (hc : 0 ≤ c) (hp : 0 ≤ p) : 0 ≤ jsRound c p :=
  Int.ediv_nonneg (by nlinarith) (by norm_num)

theorem breakdownSum_append (a b : List BreakdownCell) :
    breakdownSum (a ++ b) = breakdownSum a + breakdownSum b := by
  simp [breakdownSum]

theorem breakdownSum_typeCells (difficulty : String) (c : Int) (td : TypeDist)
    (hm : 0 ≤ td.mcq) (hk : 0 ≤ td.coding) (hslack : tierSlackOk c td) :
    breakdownSum (typeCells difficulty c td) = max c 0 := by
  unfold typeCells
  by_cases hc : c ≤ 0
  · rw [if_pos hc]
    have : max c 0 = 0 := by omega
    simp [breakdownSum, this]
  · push_neg at hc
    have hmcq : 0 ≤ jsRound c td.mcq := jsRound_nonneg (le_of_lt hc) hm
    have hcod : 0 ≤ jsRound c td.coding := jsRound_nonneg (le_of_lt hc) hk
    have htf : jsRound c td.mcq + jsRound c td.coding ≤ c := hslack hc
    rw [if_neg (not_le.mpr hc)]
    have hmax : max c 0 = c := by omega
    rw [breakdownSum_append, breakdownSum_append, hmax]
    by_cases h1 : 0 < jsRound c td.mcq <;>
      by_cases h2 : 0 < jsRound c td.coding <;>
        by_cases h3 : 0 < c - jsRound c td.mcq - jsRound c td.coding <;>
          simp only [h1, h2, h3, if_true, if_false, breakdownSum, List.map_cons,
            List.map_nil, List.sum_cons, List.sum_nil] <;> omega

/-- Claim C1, amended.  For a positive total, non-negative difficulty and
type percentages, the counts of the breakdown computed by
calculateQuestionBreakdown sum to exactly the requested total, PROVIDED
the remainder counts are non-negative: the hard tier remainder
(total minus easyCount minus mediumCount) is non-negative, and within
each tier the TrueFalse remainder after the rounded MCQ and Coding
counts is non-negative.  Without that proviso rounding can overshoot and
the sum can exceed the total (see the counterexample). -/
theorem C1_breakdown_sums_to_total (total : Int) (dd : DifficultyDist) (td : TypeDist)
    (htotal : 0 < total) (he : 0 ≤ dd.easy) (hm : 0 ≤ dd.medium)
    (hmcq : 0 ≤ td.mcq) (hcod : 0 ≤ td.coding)
    (hhard : 0 ≤ hardCount total dd)
    (hse : tierSlackOk (easyCount total dd) td)
    (hsm : tierSlackOk (mediumCount total dd) td)
    (hsh : tierSlackOk (hardCount total dd) td) :
    breakdownSum (calculateQuestionBreakdown total dd td) = total := by
  have h0 : (0 : Int) ≤ total := le_of_lt htotal
  have he' : 0 ≤ easyCount total dd := jsRound_nonneg h0 he
  have hm' : 0 ≤ mediumCount total dd := jsRound_nonneg h0 hm
  unfold calculateQuestionBreakdown
  rw [breakdownSum_append, breakdownSum_append,
    breakdownSum_typeCells _ _ _ hmcq hcod hse,
    breakdownSum_typeCells _ _ _ hmcq hcod hsm,
    breakdownSum_typeCells _ _ _ hmcq hcod hsh]
  unfold hardCount at *
  omega

/-- Witness for C1: the end-to-end example of the specification.  With
total 10, difficulty percentages 30, 50, 20 and type percentages
70, 20, 10, the tier counts are easy 3, medium 5, hard 2 and the
breakdown sums to 10. -/
theorem C1_breakdown_sums_to_total_witness :
    easyCount 10 ⟨30, 50, 20⟩ = 3 ∧ mediumCount 10 ⟨30, 50, 20⟩ = 5 ∧
    hardCount 10 ⟨30, 50, 20⟩ = 2 ∧
    breakdownSum (calculateQuestionBreakdown 10 ⟨30, 50, 20⟩ ⟨70, 20, 10⟩) = 10 :=
  ⟨by decide, by decide, by decide,
    C1_breakdown_sums_to_total 10 ⟨30, 50, 20⟩ ⟨70, 20, 10⟩ (by decide) (by decide)
      (by decide) (by decide) (by decide) (by decide) (by decide) (by decide)
      (by decide)⟩

/-- Counterexample to claim C1 as stated: with the valid configuration
total 1, difficulty percentages 50, 50, 0 and type percentages
100, 0, 0 (each triple non-negative and summing to 100), both the easy
and the medium tier round up to 1, the hard remainder is minus 1 and is
skipped, and the breakdown sums to 2, not to the requested total 1. -/
theorem C1_counterexample :
    breakdownSum (calculateQuestionBreakdown 1 ⟨50, 50, 0⟩ ⟨100, 0, 0⟩) = 2 ∧
    (50 : Int) + 50 + 0 = 100 ∧ (100 : Int) + 0 + 0 = 100 ∧
    breakdownSum (calculateQuestionBreakdown 1 ⟨50, 50, 0⟩ ⟨100, 0, 0⟩) ≠ 1 := by
  refine ⟨by decide, by decide, by decide, by decide⟩

theorem storeSample_length (store : List Question) (query : Query) (n : Nat) :
    (storeSample store query n).length ≤ n :=
  List.length_take_le n _

theorem storeSample_matches (store : List Question) (query : Query) (n : Nat)
    (q : Question) (h : q ∈ storeSample store query n) :
    matchesQuery q query = true := by
  have := List.mem_of_mem_take h
  exact (List.mem_filter.mp this).2

theorem storeSample_nodup (store : List Question)
    (hstore : (store.map (fun q => q.id)).Nodup) (query : Query) (n : Nat) :
    ((storeSample store query n).map (fun q => q.id)).Nodup := by
  have h1 : (storeSample store query n).Sublist store :=
    ((store.filter (fun q => matchesQuery q query)).take_sublist n).trans
      (List.filter_sublist store)
  exact hstore.sublist (h1.map (fun q => q.id))

theorem matchesQuery_not_excluded {q : Question} {query : Query}
    (h : matchesQuery q query = true) : q.id ∉ query.excludeIds := by
  simp only [matchesQuery, Bool.and_eq_true, Bool.not_eq_true'] at h
  intro hmem
  have hd := h.1.1.2
  simp at hd
  exact hd hmem

theorem selectQuestions_length {sample : Query → Nat → List Question}
    (Hlen : ∀ query n, (sample query n).length ≤ n)
    (categories : Option (List String)) (pool : Option QuestionPool) :
    ∀ (cells : List BreakdownCell) (ex : List String),
      ((selectQuestions sample categories pool cells ex).1).length ≤
        breakdownSizes cells := by
  intro cells
  induction cells with
  | nil => intro ex; simp [selectQuestions, breakdownSizes]
  | cons cell rest ih =>
    intro ex
    simp only [selectQuestions, List.length_append, breakdownSizes, List.map_cons,
      List.sum_cons]
    have h1 := Hlen (mkQuery cell categories pool ex) cell.count.toNat
    have h2 := ih (ex ++ (sample (mkQuery cell categories pool ex) cell.count.toNat).map
      (fun q => q.id))
    simp only [breakdownSizes] at h2
    omega

theorem selectQuestions_not_excluded {sample : Query → Nat → List Question}
    (Hmatch : ∀ query n q, q ∈ sample query n → matchesQuery q query = true)
    (categories : Option (List String)) (pool : Option QuestionPool) :
    ∀ (cells : List BreakdownCell) (ex : List String) (q : Question),
      q ∈ (selectQuestions sample categories pool cells ex).1 → q.id ∉ ex := by
  intro cells
  induction cells with
  | nil => intro ex q hq; simp [selectQuestions] at hq
  | cons cell rest ih =>
    intro ex q hq
    simp only [selectQuestions, List.mem_append] at hq
    rcases hq with hq | hq
    · have := matchesQuery_not_excluded (Hmatch _ _ _ hq)
      simpa [mkQuery] using this
    · have := ih (ex ++ (sample (mkQuery cell categories pool ex) cell.count.toNat).map
        (fun q => q.id)) q hq
      intro hmem
      exact this (List.mem_append.mpr (Or.inl hmem))

theorem selectQuestions_nodup {sample : Query → Nat → List Question}
    (Hmatch : ∀ query n q, q ∈ sample query n → matchesQuery q query = true)
    (Hnodup : ∀ query n, ((sample query n).map (fun q => q.id)).Nodup)
    (categories : Option (List String)) (pool : Option QuestionPool) :
    ∀ (cells : List BreakdownCell) (ex : List String),
      (((selectQuestions sample categories pool cells ex).1).map
        (fun q => q.id)).Nodup := by
  intro cells
  induction cells with
  | nil => intro ex; simp [selectQuestions]
  | cons cell rest ih =>
    intro ex
    simp only [selectQuestions, List.map_append]
    rw [List.nodup_append]
    refine ⟨Hnodup _ _, ih _, ?_⟩
    intro x hx hx'
    simp only [List.mem_map] at hx'
    obtain ⟨q', hq', rfl⟩ := hx'
    have := selectQuestions_not_excluded Hmatch categories pool rest
      (ex ++ (sample (mkQuery cell categories pool ex) cell.count.toNat).map
        (fun q => q.id)) q' hq'
    exact this (List.mem_append.mpr (Or.inr hx))

theorem swapAt'_length (l : List Question) (i j : Nat) :
    (swapAt' l i j).length = l.length := by
  unfold swapAt'
  cases h1 : l[i]? <;> cases h2 : l[j]? <;> simp

theorem fisherYates_length (r : Nat → Nat) :
    ∀ (i : Nat) (l : List Question), (fisherYates r i l).length = l.length := by
  intro i
  induction i with
  | zero => intro l; rfl
  | succ k ih =>
    intro l
    rw [fisherYates, ih, swapAt'_length]

theorem shuffleArray_length (r : Nat → Nat) (l : List Question) :
    (shuffleArray r l).length = l.length := fisherYates_length r _ l

theorem mem_of_mem_swapAt' {l : List Question} {i j : Nat} {q : Question}
    (h : q ∈ swapAt' l i j) : q ∈ l := by
  unfold swapAt' at h
  cases h1 : l[i]? with
  | none => rw [h1] at h; exact h
  | some a =>
    cases h2 : l[j]? with
    | none => rw [h1, h2] at h; exact h
    | some b =>
      rw [h1, h2] at h
      rcases List.mem_or_eq_of_mem_set h with h3 | rfl
      · rcases List.mem_or_eq_of_mem_set h3 with h4 | rfl
        · exact h4
        · obtain ⟨hj, rfl⟩ := List.getElem?_eq_some.mp h2
          exact List.getElem_mem hj
      · obtain ⟨hi, rfl⟩ := List.getElem?_eq_some.mp h1
        exact List.getElem_mem hi

theorem mem_of_mem_fisherYates (r : Nat → Nat) :
    ∀ (i : Nat) (l : List Question) (q : Question), q ∈ fisherYates r i l → q ∈ l := by
  intro i
  induction i with
  | zero => intro l q h; exact h
  | succ k ih =>
    intro l q h
    rw [fisherYates] at h
    exact mem_of_mem_swapAt' (ih _ q h)

theorem mem_of_mem_shuffleArray {r : Nat → Nat} {l : List Question} {q : Question}
    (h : q ∈ shuffleArray r l) : q ∈ l :=
  mem_of_mem_fisherYates r _ l q h

theorem shuffleArray_nil (r : Nat → Nat) : shuffleArray r [] = [] := rfl

theorem generateAdditionalQuestions_length
    (gen : String → String → String → Nat → List Question)
    (pickCategory : Option (List String) → String) (count : Nat)
    (breakdown : List BreakdownCell) (existing : List Question)
    (categories : Option (List String)) :
    (generateAdditionalQuestions gen pickCategory count breakdown existing
      categories).length ≤ count :=
  List.length_take_le count _

theorem mem_generateAdditionalQuestions
    {gen : String → String → String → Nat → List Question}
    {pickCategory : Option (List String) → String} {P : Question → Prop}
    (Hgen : ∀ cat difficulty qtype n q, q ∈ gen cat difficulty qtype n → P q)
    (count : Nat) (breakdown : List BreakdownCell) (existing : List Question)
    (categories : Option (List String)) (q : Question)
    (h : q ∈ generateAdditionalQuestions gen pickCategory count breakdown existing
      categories) : P q := by
  unfold generateAdditionalQuestions at h
  have h' := List.mem_of_mem_take h
  clear h
  suffices hgoal : ∀ (bd : List BreakdownCell) (acc : List Question),
      (∀ x ∈ acc, P x) →
      q ∈ bd.foldl (fun acc req =>
        let haveCount := countByType existing req.difficulty req.qtype
        let need := req.count - (haveCount : Int)
        if 0 < need then
          acc ++ gen (pickCategory categories) req.difficulty req.qtype need.toNat
        else acc) acc → P q by
    exact hgoal _ [] (by simp) h'
  intro bd
  induction bd with
  | nil => intro acc hacc h; exact hacc q h
  | cons req rest ih =>
    intro acc hacc h
    simp only [List.foldl_cons] at h
    refine ih _ ?_ h
    intro x hx
    by_cases hneed : 0 < req.count - (countByType existing req.difficulty req.qtype : Int)
    · simp only [if_pos hneed, List.mem_append] at hx
      rcases hx with hx | hx
      · exact hacc x hx
      · exact Hgen _ _ _ _ x hx
    · simp only [if_neg hneed] at hx
      exact hacc x hx

/-- Claim C5, amended.  The list returned by selectQuestionsForTest has
length at most config.totalQuestions PROVIDED the breakdown does not
overshoot, that is, its requested counts sum to at most totalQuestions
(rounding can make the breakdown request more than totalQuestions, and
then the selector can return more, see the counterexample); if
totalQuestions is 0 the result is empty; and when the store draws fall
short and generateIfNeeded is false the selector returns the shorter
best-effort list (the selection untouched, only shuffled), raising no
error. -/
theorem C5_selector_length (sample : Query → Nat → List Question)
    (gen : String → String → String → Nat → List Question)
    (pickCategory : Option (List String) → String) (r : Nat → Nat) (now : Int)
    (history : History) (pool : Option QuestionPool) (config : SelectorConfig)
    (Hlen : ∀ query n, (sample query n).length ≤ n)
    (Hsum : breakdownSizes (calculateQuestionBreakdown (config.totalQuestions : Int)
      config.difficultyDistribution config.questionTypes) ≤ config.totalQuestions) :
    (selectQuestionsForTest sample gen pickCategory r now history pool config).length ≤
      config.totalQuestions ∧
    (config.totalQuestions = 0 →
      selectQuestionsForTest sample gen pickCategory r now history pool config = []) ∧
    (config.generateIfNeeded = false →
      (selectQuestionsForTest sample gen pickCategory r now history pool config).length =
        ((selectQuestions sample config.categories pool
          (calculateQuestionBreakdown (config.totalQuestions : Int)
            config.difficultyDistribution config.questionTypes)
          (if config.avoidRecentQuestions then
            getRecentlySeenQuestionIds history config.recentQuestionDays now
          else [])).1).length) := by
  set recent := (if config.avoidRecentQuestions then
    getRecentlySeenQuestionIds history config.recentQuestionDays now
  else []) with hrecent
  set bd := calculateQuestionBreakdown (config.totalQuestions : Int)
    config.difficultyDistribution config.questionTypes with hbd
  set sel := (selectQuestions sample config.categories pool bd recent).1 with hsel
  have hunfold : selectQuestionsForTest sample gen pickCategory r now history pool config =
      shuffleArray r
        (if sel.length < config.totalQuestions && config.generateIfNeeded then
          sel ++ generateAdditionalQuestions gen pickCategory
            (config.totalQuestions - sel.length) bd sel config.categories
        else sel) := rfl
  have hsellen : sel.length ≤ breakdownSizes bd :=
    selectQuestions_length Hlen config.categories pool bd recent
  rw [hunfold]
  by_cases hlt : sel.length < config.totalQuestions
  · cases hgen : config.generateIfNeeded with
    | false =>
      have hcond : (decide (sel.length < config.totalQuestions) && false) = false :=
        Bool.and_false _
      rw [hcond, if_neg (Bool.false_ne_true), shuffleArray_length]
      exact ⟨le_of_lt hlt, fun h0 => absurd h0 (by omega), fun _ => rfl⟩
    | true =>
      have hcond : (decide (sel.length < config.totalQuestions) && true) = true := by
        simp [hlt]
      rw [hcond, if_pos rfl, shuffleArray_length, List.length_append]
      have hg := generateAdditionalQuestions_length gen pickCategory
        (config.totalQuestions - sel.length) bd sel config.categories
      refine ⟨by omega, fun h0 => absurd h0 (by omega), ?_⟩
      intro hfalse
      exact absurd hfalse (by simp)
  · have hcond : (decide (sel.length < config.totalQuestions) &&
        config.generateIfNeeded) = false := by
      simp [hlt]
    rw [hcond, if_neg (Bool.false_ne_true), shuffleArray_length]
    refine ⟨le_trans hsellen Hsum, ?_, fun _ => rfl⟩
    intro h0
    have hz : sel.length = 0 := by omega
    have hnil : sel = [] := List.length_eq_zero.mp hz
    rw [hnil]
    exact shuffleArray_nil r

/-- Witness for C5: the end-to-end example of the specification.  With
totalQuestions 7, a store able to supply only 5 matching questions and
generateIfNeeded false, the selector returns exactly 5 questions (and at
most 7), with no error. -/
theorem C5_selector_length_witness :
    (selectQuestionsForTest (storeSample storeFive) noGen pickGeneral randZero 0
      emptyHistory none configSeven).length ≤ 7 ∧
    (selectQuestionsForTest (storeSample storeFive) noGen pickGeneral randZero 0
      emptyHistory none configSeven).length = 5 :=
  ⟨(C5_selector_length (storeSample storeFive) noGen pickGeneral randZero 0
      emptyHistory none configSeven (storeSample_length storeFive) (by decide)).1,
    by decide⟩

/-- Counterexample to claim C5 as stated: with the configuration
totalQuestions 1, difficulty percentages 50, 50, 0 and type percentages
100, 0, 0, the breakdown requests one easy MCQ and one medium MCQ, a
store holding both supplies two questions, and the selector returns a
list of length 2, exceeding totalQuestions 1. -/
theorem C5_counterexample :
    (selectQuestionsForTest (storeSample [mkMcq "e1" "easy", mkMcq "m1" "medium"])
      noGen pickGeneral randZero 0 emptyHistory none
      ⟨1, ⟨50, 50, 0⟩, ⟨100, 0, 0⟩, none, false, 30, false⟩).length = 2 ∧
    (⟨1, ⟨50, 50, 0⟩, ⟨100, 0, 0⟩, none, false, 30, false⟩ :
      SelectorConfig).totalQuestions = 1 := by
  refine ⟨by decide, rfl⟩

/-- Claim C6.  Under a store that honours the query filter (every
sampled question matches, with distinct ids per draw) and a generator
that only produces fresh questions (ids outside the recent window,
matching saveGeneratedQuestions creating new records), no question
returned by selectQuestionsForTest with avoidRecentQuestions true was
seen by the learner within the recentQuestionDays window; moreover every
draw of selectQuestions appends its ids to the exclusion list, so the
ids selected across all breakdown cells are pairwise distinct and no
later cell re-selects a question of an earlier cell. -/
theorem C6_no_recent_repeats (sample : Query → Nat → List Question)
    (gen : String → String → String → Nat → List Question)
    (pickCategory : Option (List String) → String) (r : Nat → Nat) (now : Int)
    (history : History) (pool : Option QuestionPool) (config : SelectorConfig)
    (Havoid : config.avoidRecentQuestions = true)
    (Hmatch : ∀ query n q, q ∈ sample query n → matchesQuery q query = true)
    (Hnodup : ∀ query n, ((sample query n).map (fun q => q.id)).Nodup)
    (Hgen : ∀ cat difficulty qtype n q, q ∈ gen cat difficulty qtype n →
      q.id ∉ getRecentlySeenQuestionIds history config.recentQuestionDays now) :
    (∀ q ∈ selectQuestionsForTest sample gen pickCategory r now history pool config,
      ∀ sq ∈ history.seenQuestions,
        now - config.recentQuestionDays < sq.seenAt → q.id ≠ sq.question) ∧
    (∀ (cells : List BreakdownCell) (ex : List String),
      (((selectQuestions sample config.categories pool cells ex).1).map
        (fun q => q.id)).Nodup) := by
  refine ⟨?_, selectQuestions_nodup Hmatch Hnodup config.categories pool⟩
  intro q hq sq hsq hrecent
  intro hid
  have hidmem : q.id ∈ getRecentlySeenQuestionIds history config.recentQuestionDays
      now := by
    unfold getRecentlySeenQuestionIds
    rw [hid]
    exact List.mem_map_of_mem _ (List.mem_filter.mpr ⟨hsq, by simpa using hrecent⟩)
  have hq' := mem_of_mem_shuffleArray hq
  set recent := getRecentlySeenQuestionIds history config.recentQuestionDays now
    with hrec
  set bd := calculateQuestionBreakdown (config.totalQuestions : Int)
    config.difficultyDistribution config.questionTypes with hbd
  rw [Havoid] at hq'
  simp only [if_pos rfl, ite_true, if_true] at hq'
  set sel := (selectQuestions sample config.categories pool bd recent).1 with hsel
  have hselmem : ∀ p ∈ sel, p.id ∉ recent :=
    fun p hp => selectQuestions_not_excluded Hmatch config.categories pool bd recent p hp
  by_cases hcond : (decide (sel.length < config.totalQuestions) &&
      config.generateIfNeeded) = true
  · rw [if_pos hcond] at hq'
    rcases List.mem_append.mp hq' with hq'' | hq''
    · exact hselmem q hq'' hidmem
    · exact mem_generateAdditionalQuestions Hgen _ _ _ _ q hq'' hidmem
  · rw [if_neg hcond] at hq'
    exact hselmem q hq' hidmem

/-- Witness for C6: with a learner who saw question r1 five days ago and
a 30 day window, the selector never returns r1, even though the store
holds it. -/
theorem C6_no_recent_repeats_witness :
    "r1" ∉ (selectQuestionsForTest (storeSample storeRecent) noGen pickGeneral
      randZero 6 historyRecent none configRecent).map (fun q => q.id) := by
  have h := C6_no_recent_repeats (storeSample storeRecent) noGen pickGeneral
    randZero 6 historyRecent none configRecent rfl
    (fun query n q hq => storeSample_matches storeRecent query n q hq)
    (fun query n => storeSample_nodup storeRecent (by decide) query n)
    (by intro cat difficulty qtype n q hq; simp [noGen] at hq)
  intro hmem
  obtain ⟨q, hq, hqid⟩ := List.mem_map.mp hmem
  exact h.1 q hq ⟨"r1", "t0", 5, false⟩ (by decide) (by decide) hqid

theorem computeScore_step (exec : String → String → CaseOutcome)
    (questions : List Question) (answers : List SubmittedAnswer) :
    ∀ s : Nat, answers.foldl (fun score sa =>
      match questions.find? (fun q => q.id == sa.questionId) with
      | none => score
      | some q =>
        if q.questionType == "MCQ" then
          if q.correctAnswer == sa.answer then score + 1 else score
        else if q.questionType == "Coding" then
          if gradeCoding exec sa.answer q.testCases then score + 1 else score
        else score) s =
      s + (answers.map (answerScore exec questions)).sum := by
  induction answers with
  | nil => intro s; simp
  | cons sa rest ih =>
    intro s
    simp only [List.foldl_cons, List.map_cons, List.sum_cons]
    rw [ih]
    have hstep : (match questions.find? (fun q => q.id == sa.questionId) with
      | none => s
      | some q =>
        if q.questionType == "MCQ" then
          if q.correctAnswer == sa.answer then s + 1 else s
        else if q.questionType == "Coding" then
          if gradeCoding exec sa.answer q.testCases then s + 1 else s
        else s) = s + answerScore exec questions sa := by
      unfold answerScore
      cases questions.find? (fun q => q.id == sa.questionId) with
      | none => simp
      | some q =>
        by_cases h1 : (q.questionType == "MCQ") = true <;>
          by_cases h2 : (q.correctAnswer == sa.answer) = true <;>
            by_cases h3 : (q.questionType == "Coding") = true <;>
              by_cases h4 : gradeCoding exec sa.answer q.testCases = true <;>
                simp [h1, h2, h3, h4]
    rw [hstep]
    omega

/-- Claim C3.  For every sandbox behaviour and submitted code: a Coding
question earns its point exactly when every attached test case passes
(success with matching stringified output); any failing case, placed
anywhere, forces the verdict false no matter what the cases after it
would do (the loop breaks at the first failure, so failures include
timeouts and thrown errors as well as mismatches, and there is no
partial credit); and the total score of a submission is the sum of the
independent per-answer scores, so one failed coding question never
aborts the grading of the remaining answers. -/
theorem C3_coding_all_cases (exec : String → String → CaseOutcome) (code : String) :
    (∀ cases : List TestCase,
      gradeCoding exec code cases = true ↔
        ∀ tc ∈ cases, casePasses exec code tc = true) ∧
    (∀ (pre : List TestCase) (tc : TestCase) (rest : List TestCase),
      casePasses exec code tc = false →
        gradeCoding exec code (pre ++ tc :: rest) = false) ∧
    (∀ (questions : List Question) (answers : List SubmittedAnswer),
      computeScore exec questions answers =
        (answers.map (answerScore exec questions)).sum) := by
  refine ⟨?_, ?_, ?_⟩
  · intro cases
    induction cases with
    | nil => simp [gradeCoding]
    | cons tc rest ih =>
      simp only [gradeCoding, List.mem_cons]
      cases hout : exec code tc.input with
      | success out =>
        dsimp only
        by_cases heq : (out == tc.output) = true
        · rw [if_pos heq]
          rw [ih]
          constructor
          · intro hall tc' htc'
            rcases htc' with rfl | htc'
            · simp [casePasses, hout, heq]
            · exact hall tc' htc'
          · intro hall tc' htc'
            exact hall tc' (Or.inr htc')
        · rw [if_neg heq]
          constructor
          · intro hfalse; exact absurd hfalse (by simp)
          · intro hall
            have := hall tc (Or.inl rfl)
            rw [casePasses, hout] at this
            exact absurd this heq
      | error =>
        dsimp only
        constructor
        · intro hfalse; exact absurd hfalse (by simp)
        · intro hall
          have := hall tc (Or.inl rfl)
          rw [casePasses, hout] at this
          exact absurd this (by simp)
  · intro pre
    induction pre with
    | nil =>
      intro tc rest hfail
      rw [List.nil_append]
      unfold casePasses at hfail
      cases hout : exec code tc.input with
      | success out =>
        rw [hout] at hfail
        dsimp only at hfail
        simp only [gradeCoding, hout]
        rw [if_neg (by simp [hfail])]
      | error => simp [gradeCoding, hout]
    | cons p pre' ih =>
      intro tc rest hfail
      rw [List.cons_append]
      cases hout : exec code p.input with
      | success out =>
        simp only [gradeCoding, hout]
        by_cases heq : (out == p.output) = true
        · rw [if_pos heq]
          exact ih tc rest hfail
        · rw [if_neg heq]
      | error => simp [gradeCoding, hout]
  · intro questions answers
    unfold computeScore
    rw [computeScore_step exec questions answers 0]
    omega

/-- Witness for C3: the end-to-end example of the specification.  A
Coding question with three test cases where case 2 times out scores 0
points, whatever cases 1 and 3 would have produced; and grading two
coding answers still scores the second one after the first fails. -/
theorem C3_coding_all_cases_witness :
    gradeCoding execTimesOutOn2 "code"
      [⟨"in1", "ok"⟩, ⟨"in2", "ok"⟩, ⟨"in3", "anything"⟩] = false ∧
    computeScore execTimesOutOn2
      [⟨"q1", "Coding", "easy", "General", "q", [], "", [⟨"in2", "ok"⟩], 1, true⟩,
       ⟨"q2", "Coding", "easy", "General", "q", [], "", [⟨"in1", "ok"⟩], 1, true⟩]
      [⟨"q1", "bad"⟩, ⟨"q2", "good"⟩] = 1 := by
  constructor
  · exact (C3_coding_all_cases execTimesOutOn2 "code").2.1
      [⟨"in1", "ok"⟩] ⟨"in2", "ok"⟩ [⟨"in3", "anything"⟩] (by decide)
  · rw [(C3_coding_all_cases execTimesOutOn2 "bad").2.2]
    decide

/-- Claim C2 is violated by the code: submitTest scores only the MCQ and
Coding branches, so a TrueFalse answer that is exactly string-equal to
the stored correctAnswer earns no point from the grading loop, even
though checkAnswer (used for the history update of the very same
submission) marks the same answer correct.  At the failing input, a
TrueFalse question with correctAnswer True answered True, the score is
0 where the claim requires 1. -/
theorem C2_truefalse_not_scored :
    computeScore execTimesOutOn2 [tfQuestion] [⟨"q1", "True"⟩] = 0 ∧
    checkAnswer tfQuestion "True" = true ∧
    tfQuestion.correctAnswer == "True" := by
  refine ⟨by decide, by decide, by decide⟩

theorem submitTestGrade_isPassed (exec : String → String → CaseOutcome)
    (student : String) (test : Test) (answers : List SubmittedAnswer)
    (tabSwitchCount : Nat) :
    (submitTestGrade exec student test answers tabSwitchCount).isPassed =
      decide (((computeScore exec test.questions answers : Nat) : Int) ≥
        ⌈(test.questions.length : ℚ) * (6 / 10)⌉) := rfl

theorem ceil_sixtenths (n : Nat) :
    ⌈(n : ℚ) * (6 / 10)⌉ = ((3 * n + 4) / 5 : Nat) := by
  have hq := Nat.div_add_mod (3 * n + 4) 5
  have hr : (3 * n + 4) % 5 < 5 := Nat.mod_lt _ (by norm_num)
  set q := (3 * n + 4) / 5 with hqdef
  set r := (3 * n + 4) % 5 with hrdef
  have hq' : (5 : ℚ) * (q : ℚ) + (r : ℚ) = 3 * (n : ℚ) + 4 := by exact_mod_cast hq
  have hr' : (r : ℚ) ≤ 4 := by exact_mod_cast Nat.lt_succ_iff.mp hr
  have hr0 : (0 : ℚ) ≤ (r : ℚ) := by positivity
  rw [Int.ceil_eq_iff]
  rw [Int.cast_natCast]
  constructor
  · linarith
  · linarith

/-- Claim C4, amended.  For every graded submission, isPassed holds if
and only if score is at least ceil(totalQuestions * 0.6); the threshold
fraction 0.6 is hard-coded in submitTest, and the passingPercentage of
the Test config has no effect on the verdict (the claim that it is
overridable via the config fails, see the counterexample). -/
theorem C4_passing_threshold (exec : String → String → CaseOutcome)
    (student : String) (test : Test) (answers : List SubmittedAnswer)
    (tabSwitchCount : Nat) (pct : Nat) :
    ((submitTestGrade exec student test answers tabSwitchCount).isPassed = true ↔
      (((submitTestGrade exec student test answers tabSwitchCount).score : Nat) : Int) ≥
        ⌈((submitTestGrade exec student test answers tabSwitchCount).totalQuestions :
          ℚ) * (6 / 10)⌉) ∧
    ((submitTestGrade exec student test answers tabSwitchCount).isPassed = true ↔
      (submitTestGrade exec student test answers tabSwitchCount).score ≥
        (3 * (submitTestGrade exec student test answers tabSwitchCount).totalQuestions
          + 4) / 5) ∧
    (submitTestGrade exec student
        { test with config := { test.config with passingPercentage := pct } }
        answers tabSwitchCount).isPassed =
      (submitTestGrade exec student test answers tabSwitchCount).isPassed := by
  refine ⟨?_, ?_, rfl⟩
  · rw [submitTestGrade_isPassed]
    rw [decide_eq_true_iff]
    rfl
  · rw [submitTestGrade_isPassed]
    rw [decide_eq_true_iff]
    have : (submitTestGrade exec student test answers tabSwitchCount).totalQuestions =
      test.questions.length := rfl
    rw [show (submitTestGrade exec student test answers tabSwitchCount).score =
      computeScore exec test.questions answers from rfl, this, ceil_sixtenths]
    constructor
    · intro h
      exact_mod_cast h
    · intro h
      exact_mod_cast h

/-- Counterexample to claim C4 as stated: a test whose config sets
passingPercentage 50 is answered with score 5 of 10.  Under the claimed
formula with the configured fraction the submission passes (5 is at
least ceil(10 * 50 / 100) = 5), but the code hard-codes 0.6, demands
ceil(10 * 0.6) = 6, and marks it failed: the config is not honoured. -/
theorem C4_counterexample :
    (submitTestGrade execTimesOutOn2 "s1" testTen answersTen 0).score = 5 ∧
    (submitTestGrade execTimesOutOn2 "s1" testTen answersTen 0).totalQuestions = 10 ∧
    testTen.config.passingPercentage = 50 ∧
    (((submitTestGrade execTimesOutOn2 "s1" testTen answersTen 0).score : Int) ≥
      ⌈((submitTestGrade execTimesOutOn2 "s1" testTen answersTen 0).totalQuestions : ℚ)
        * ((testTen.config.passingPercentage : ℚ) / 100)⌉) ∧
    (submitTestGrade execTimesOutOn2 "s1" testTen answersTen 0).isPassed = false := by
  have hscore : (submitTestGrade execTimesOutOn2 "s1" testTen answersTen 0).score = 5 :=
    by decide
  have htotal : (submitTestGrade execTimesOutOn2 "s1" testTen answersTen
      0).totalQuestions = 10 := by decide
  refine ⟨hscore, htotal, by decide, ?_, ?_⟩
  · rw [hscore, htotal]
    have hpct : testTen.config.passingPercentage = 50 := by decide
    rw [hpct]
    norm_num
  · rw [submitTestGrade_isPassed]
    have hs : computeScore execTimesOutOn2 testTen.questions answersTen = 5 := by decide
    have hl : testTen.questions.length = 10 := by decide
    rw [hs, hl, decide_eq_false_iff_not]
    norm_num

/-- Claim C9 is violated by the code: updateStudentHistory matches the
seen-question log entries by question id but increments correctAnswers
by pairing answers with questions POSITIONALLY.  At the failing input,
questions q1 (correct A) and q2 (correct B) with the answers array
ordered q2 B then q1 X, the appended log holds exactly one entry with
answeredCorrectly true (q2 was answered B), yet correctAnswers grows by
0, because the filter checks q1 against B and q2 against X.  The
totalQuestionsAttempted increase (2) does match the questions
processed. -/
theorem C9_aggregates_inconsistent :
    (updateStudentHistory 0 emptyHistory "t1" [q1McqA, q2McqB]
      [⟨"q2", "B"⟩, ⟨"q1", "X"⟩]).map
      (fun h => (h.correctAnswers,
        (h.seenQuestions.filter (fun sq => sq.answeredCorrectly)).length,
        h.totalQuestionsAttempted)) =
      Except.ok (0, 1, 2) := by
  rfl

/-- Claim C8.  A failure of the history persistence never unwinds a
computed grade: the response of submitTest carries exactly the score,
verdict and total of the grading phase whatever the history save does,
two runs differing only in the history save return the same response,
and when the in-memory update succeeds but the save fails the failure
is recorded in the error log (not propagated as a grading failure). -/
theorem C8_history_failure_not_propagated (exec : String → String → CaseOutcome)
    (saveHistory saveHistory2 : History → Except String History) (now : Int)
    (student : String) (history : History) (test : Test)
    (answers : List SubmittedAnswer) (tabSwitchCount : Nat) :
    ((submitTestHandler exec saveHistory now student history test answers
      tabSwitchCount).2 =
      (submitTestHandler exec saveHistory2 now student history test answers
        tabSwitchCount).2) ∧
    ((submitTestHandler exec saveHistory now student history test answers
      tabSwitchCount).2.score =
      (submitTestGrade exec student test answers tabSwitchCount).score) ∧
    ((submitTestHandler exec saveHistory now student history test answers
      tabSwitchCount).2.isPassed =
      (submitTestGrade exec student test answers tabSwitchCount).isPassed) ∧
    ((submitTestHandler exec saveHistory now student history test answers
      tabSwitchCount).2.message = "Test submitted successfully") ∧
    (∀ (h : History) (e : String),
      updateStudentHistory now history test.id test.questions answers =
        Except.ok h →
      saveHistory h = Except.error e →
      (submitTestHandler exec saveHistory now student history test answers
        tabSwitchCount).1 = ["Failed to update question history: " ++ e]) := by
  refine ⟨rfl, rfl, rfl, rfl, ?_⟩
  intro h e hupd hsave
  unfold submitTestHandler
  rw [hupd]
  dsimp only
  rw [hsave]

/-- Witness for C8: grading an empty test while the history save fails
with db down still produces the success response with its score, and
the failure lands in the error log. -/
theorem C8_history_failure_not_propagated_witness :
    (submitTestHandler execTimesOutOn2 saveFails 0 "s1"
      emptyHistory ⟨"t1", "lr1", "s1", [], ⟨1800, 60, true, true⟩, 0, "Assigned"⟩
      [] 0).1 = ["Failed to update question history: db down"] :=
  (C8_history_failure_not_propagated execTimesOutOn2 saveFails saveFails 0 "s1"
    emptyHistory ⟨"t1", "lr1", "s1", [], ⟨1800, 60, true, true⟩, 0, "Assigned"⟩
    [] 0).2.2.2.2 emptyHistory "db down" rfl rfl

theorem overallAccuracy_ge_iff (h : History) (a b : Nat) (hb : 0 < b)
    (ht : 0 < h.totalQuestionsAttempted) :
    overallAccuracy h ≥ (a : ℚ) / (b : ℚ) ↔
      a * h.totalQuestionsAttempted ≤ b * h.correctAnswers := by
  unfold overallAccuracy
  rw [ge_iff_le, div_le_div_iff₀ (by exact_mod_cast hb) (by exact_mod_cast ht)]
  constructor
  · intro hle
    exact_mod_cast (by linarith : ((a : ℚ)) * (h.totalQuestionsAttempted : ℚ) ≤
      (b : ℚ) * (h.correctAnswers : ℚ))
  · intro hle
    have : ((a : ℚ)) * (h.totalQuestionsAttempted : ℚ) ≤
      (b : ℚ) * (h.correctAnswers : ℚ) := by exact_mod_cast hle
    linarith

/-- Claim C7.  getAdaptiveDifficulty returns the neutral distribution
30, 50, 20 below 10 attempts, and otherwise selects the band by the
overall accuracy correctAnswers / totalQuestionsAttempted: at least 0.8
gives 10, 40, 50; at least 0.6 but below 0.8 gives 25, 50, 25; below
0.6 gives 50, 40, 10. -/
theorem C7_adaptive_difficulty (h : History) :
    (h.totalQuestionsAttempted < 10 → getAdaptiveDifficulty h = ⟨30, 50, 20⟩) ∧
    (10 ≤ h.totalQuestionsAttempted →
      (overallAccuracy h ≥ 8 / 10 → getAdaptiveDifficulty h = ⟨10, 40, 50⟩) ∧
      (overallAccuracy h < 8 / 10 → overallAccuracy h ≥ 6 / 10 →
        getAdaptiveDifficulty h = ⟨25, 50, 25⟩) ∧
      (overallAccuracy h < 6 / 10 → getAdaptiveDifficulty h = ⟨50, 40, 10⟩)) := by
  constructor
  · intro hlt
    unfold getAdaptiveDifficulty
    rw [if_pos hlt]
  · intro hge
    have hnot : ¬ h.totalQuestionsAttempted < 10 := by omega
    refine ⟨?_, ?_, ?_⟩
    · intro hacc
      unfold getAdaptiveDifficulty
      rw [if_neg hnot, if_pos hacc]
    · intro hacc1 hacc2
      unfold getAdaptiveDifficulty
      rw [if_neg hnot, if_neg (not_le.mpr hacc1), if_pos hacc2]
    · intro hacc
      unfold getAdaptiveDifficulty
      rw [if_neg hnot, if_neg (by push_neg; linarith),
        if_neg (not_le.mpr hacc)]

/-- Witness for C7: the end-to-end example of the specification.  A
learner with 20 attempts and 17 correct answers (accuracy 0.85) gets
the high-performer distribution 10, 40, 50. -/
theorem C7_adaptive_difficulty_witness :
    getAdaptiveDifficulty historySeventeen = ⟨10, 40, 50⟩ :=
  ((C7_adaptive_difficulty historySeventeen).2 (by decide)).1
    ((overallAccuracy_ge_iff historySeventeen 8 10 (by decide) (by decide)).mpr
      (by decide))

/-- Claim C10.  The response of getTestById is invariant under any
change of the stored correctAnswer and testCases of its questions: for
every rewriting of those two fields (per question), the response is
unchanged, so hidden answers and hidden test cases never reach the
client before grading. -/
theorem C10_answers_not_leaked (test : Test) (newAnswer : Question → String)
    (newCases : Question → List TestCase) :
    getTestByIdResponse
      { test with questions := test.questions.map (fun q =>
        { q with correctAnswer := newAnswer q, testCases := newCases q }) } =
      getTestByIdResponse test := by
  unfold getTestByIdResponse
  simp only [List.map_map]
  rfl

end LmB
